import Mathlib

/-!
Verification of the toaster-mvp photobooth against its specification.

The repository is a browser photobooth: a capture page shoots four mirrored
webcam frames with a per-shot countdown and stores them, and a result page
composes them into a 1200x1800 collage under one of four frame
configurations and persists the result under a single storage key.

This file gives a shallow embedding of the relevant functions.  Pure
computations (slot scaling, cover-fit geometry, the frame table lookup) are
translated directly.  Browser effects (image decoding, 2d-context
availability, PNG encoding, IndexedDB via idb-keyval) are modelled by
explicit environments and a key-value store, and the drawing side effects of
a canvas context are recorded as a trace of operations.
-/

namespace Toaster

/-- The `FrameId` union type: `"frame1" | "frame2" | "frame3" | "frame4"`. -/
inductive FrameId
  | frame1
  | frame2
  | frame3
  | frame4
deriving DecidableEq, Repr, Inhabited

/-- An opaque image blob (browser `Blob`), identified symbolically. -/
structure Blob where
  id : Nat
deriving DecidableEq, Repr, Inhabited

/-- A decoded `HTMLImageElement`: all the compositor reads from it is its
width and height (JS numbers, modelled as rationals). -/
structure Image where
  width : Rat
  height : Rat
deriving DecidableEq, Repr, Inhabited

/-- A normalized slot rectangle (`SlotRect` in the source): coordinates in
0..1 against the 1200x1800 output. -/
structure SlotRect where
  x : Rat
  y : Rat
  w : Rat
  h : Rat
deriving DecidableEq, Repr, Inhabited

/-- A frame configuration (`FrameConfig` in the source): id, label, image
path and an optional slot table. -/
structure FrameConfig where
  id : FrameId
  label : String
  src : String
  slots : Option (List SlotRect)
deriving DecidableEq, Repr, Inhabited

/-- `DEFAULT_SLOTS` from the result page, used when a frame has no slot
table of its own. -/
def DEFAULT_SLOTS : List SlotRect :=
  [ ⟨0.075, 0.2, 0.425, 0.2833333333⟩,
    ⟨0.5, 0.2, 0.425, 0.2833333333⟩,
    ⟨0.075, 0.5166666667, 0.425, 0.2833333333⟩,
    ⟨0.5, 0.5166666667, 0.425, 0.2833333333⟩ ]

/-- The `FRAMES` table of the result page: four fixed configurations.
`frame1` and `frame3` carry no slot table; `frame2` and `frame4` carry
hand-tuned tables. -/
def FRAMES : List FrameConfig :=
  [ ⟨.frame1, "Frame 1", "/frames/frame1.png", none⟩,
    ⟨.frame2, "Frame 2", "/frames/frame2.png",
      some [ ⟨0.105, 0.3261, 0.3675, 0.2433⟩,
             ⟨0.5142, 0.3261, 0.3683, 0.2433⟩,
             ⟨0.105, 0.5783, 0.3675, 0.2428⟩,
             ⟨0.5142, 0.5783, 0.3683, 0.2428⟩ ]⟩,
    ⟨.frame3, "Frame 3", "/frames/frame3.png", none⟩,
    ⟨.frame4, "Frame 4", "/frames/frame4.png",
      some [ ⟨0.1016, 0.3242, 0.3721, 0.2474⟩,
             ⟨0.5107, 0.3242, 0.3721, 0.2474⟩,
             ⟨0.1016, 0.5762, 0.3721, 0.2474⟩,
             ⟨0.5107, 0.5762, 0.3721, 0.2474⟩ ]⟩ ]

/-- `DB_KEY`, the single storage key used by every page. -/
def DB_KEY : String := "toaster_mvp_state_v1"

/-- `getFrameConfig`: `FRAMES.find((f) => f.id === frameId) ?? FRAMES[0]`. -/
def getFrameConfig (frameId : FrameId) : FrameConfig :=
  match FRAMES.find? (fun f => f.id == frameId) with
  | some f => f
  | none => FRAMES.headI

/-- JavaScript `Math.round`: round half toward positive infinity. -/
def jsRound (q : Rat) : Int := ⌊q + 1 / 2⌋

/-- A slot rectangle in output pixels after rounding. -/
structure SlotI where
  x : Int
  y : Int
  w : Int
  h : Int
deriving DecidableEq, Repr, Inhabited

/-- Scaling of one normalized slot to the 1200x1800 canvas, as done at the
top of `composeFinalPNG`: each coordinate multiplied by the canvas dimension
and passed to `Math.round`. -/
def scaleSlot (s : SlotRect) : SlotI :=
  ⟨jsRound (s.x * 1200), jsRound (s.y * 1800),
   jsRound (s.w * 1200), jsRound (s.h * 1800)⟩

/-- The drawing side effects a 2d canvas context performs while composing,
in order.  `clippedDraw i cx cy cw ch dx dy dw dh` is the block
`save; beginPath; rect(cx,cy,cw,ch); clip; drawImage(img_i,dx,dy,dw,dh);
restore` of the compositor, and `strokeRect` the slot outline drawn after
it. -/
inductive CanvasOp
  | fillRect (color : String) (x y w h : Int)
  | clippedDraw (shotIdx : Nat) (clipX clipY clipW clipH : Int)
      (dx dy dw dh : Rat)
  | strokeRect (style : String) (lineWidth : Nat) (x y w h : Int)
  | drawFrame (src : String) (x y w h : Int)
deriving DecidableEq, Repr

/-- The ways `composeFinalPNG` can reject. -/
inductive ComposeErr
  | needExactly4Shots
  | canvasNotSupported
  | shotLoadFailed
  | frameLoadFailed
  | toBlobFailed
deriving DecidableEq, Repr

/-- The `message` carried by each rejection: the three errors thrown with an
`Error` object carry the source's string; image-load failures reject with a
DOM event and carry none. -/
def errMessage : ComposeErr → Option String
  | .needExactly4Shots => some "Need exactly 4 shots"
  | .canvasNotSupported => some "Canvas not supported"
  | .toBlobFailed => some "toBlob failed"
  | .shotLoadFailed => none
  | .frameLoadFailed => none

/-- The browser facilities `composeFinalPNG` relies on: whether
`getContext("2d")` succeeds, how blobs decode to images (`blobToImage`), how
URLs load as images (`loadImage`), and whether `canvas.toBlob` produces a
blob. -/
structure ComposeEnv where
  ctx2d : Bool
  decodeBlob : Blob → Option Image
  loadImage : String → Option Image
  toBlobOk : Bool

/-- The composite `composeFinalPNG` encodes: the canvas dimensions, the
recorded drawing operations and the requested encoding mime type. -/
structure Composite where
  width : Nat
  height : Nat
  ops : List CanvasOp
  mime : String
deriving DecidableEq, Repr, Inhabited

/-- `Promise.all(shots.map(blobToImage))`: decodes all shots, failing if any
single decode fails. -/
def decodeAll (env : ComposeEnv) : List Blob → Option (List Image)
  | [] => some []
  | b :: bs =>
    match env.decodeBlob b, decodeAll env bs with
    | some i, some is => some (i :: is)
    | _, _ => none

/-- The cover-fit scale of `composeFinalPNG`:
`Math.max(w / img.width, h / img.height)`. -/
def coverScale (img : Image) (w h : Rat) : Rat :=
  max (w / img.width) (h / img.height)

/-- The operations drawing shot `i` into pixel slot `s`: the image is
cover-scaled, centered on the slot, clipped to it, and the slot outline is
stroked. -/
def shotDrawOps (i : Nat) (img : Image) (s : SlotI) : List CanvasOp :=
  let scale := coverScale img (s.w : Rat) (s.h : Rat)
  let drawW := img.width * scale
  let drawH := img.height * scale
  let dx := (s.x : Rat) + ((s.w : Rat) - drawW) / 2
  let dy := (s.y : Rat) + ((s.h : Rat) - drawH) / 2
  [ .clippedDraw i s.x s.y s.w s.h dx dy drawW drawH,
    .strokeRect "rgba(0,0,0,0.08)" 6 s.x s.y s.w s.h ]

/-- `shotImgs.forEach((img, i) => ...)` over the slot table: index `i`
pairs image `i` with slot `i`. -/
def allShotOps : Nat → List Image → List SlotI → List CanvasOp
  | _, [], _ => []
  | _, _ :: _, [] => []
  | i, img :: imgs, s :: ss => shotDrawOps i img s ++ allShotOps (i + 1) imgs ss

/-- `composeFinalPNG(shots, frame)` of the result page: guard on exactly 4
shots, scale the frame's slot table (or `DEFAULT_SLOTS`) to 1200x1800,
create the canvas, fill it white, draw each shot clipped into its slot,
draw the frame image over the whole canvas, and encode as a PNG blob. -/
def composeFinalPNG (env : ComposeEnv) (shots : List Blob)
    (frame : FrameConfig) : Except ComposeErr Composite :=
  if shots.length ≠ 4 then .error .needExactly4Shots
  else
    let W : Int := 1200
    let H : Int := 1800
    let slots := (frame.slots.getD DEFAULT_SLOTS).map scaleSlot
    if env.ctx2d = false then .error .canvasNotSupported
    else
      match decodeAll env shots with
      | none => .error .shotLoadFailed
      | some shotImgs =>
        match env.loadImage frame.src with
        | none => .error .frameLoadFailed
        | some _ =>
          if env.toBlobOk = false then .error .toBlobFailed
          else
            .ok { width := 1200, height := 1800,
                  ops := .fillRect "#ffffff" 0 0 W H ::
                    (allShotOps 0 shotImgs slots
                      ++ [.drawFrame frame.src 0 0 W H]),
                  mime := "image/png" }

/-- The earlier `composeFinalPNG(shots, frameSrc)` variant of the combined
page: same guard and pipeline, but with a computed 2x2 grid of square cells
(padding 90, gap 60) instead of a slot table. -/
def composeFinalPNGGrid (env : ComposeEnv) (shots : List Blob)
    (frameSrc : String) : Except ComposeErr Composite :=
  if shots.length ≠ 4 then .error .needExactly4Shots
  else
    let W : Int := 1200
    let H : Int := 1800
    let padding : Int := 90
    let gap : Int := 60
    let gridW := W - padding * 2
    let cellW := (gridW - gap) / 2
    let cellH := cellW
    let totalGridH := cellH * 2 + gap
    let startX := padding
    let startY := (H - totalGridH) / 2
    let positions : List (Int × Int) :=
      [ (startX, startY), (startX + cellW + gap, startY),
        (startX, startY + cellH + gap),
        (startX + cellW + gap, startY + cellH + gap) ]
    if env.ctx2d = false then .error .canvasNotSupported
    else
      match decodeAll env shots with
      | none => .error .shotLoadFailed
      | some shotImgs =>
        match env.loadImage frameSrc with
        | none => .error .frameLoadFailed
        | some _ =>
          if env.toBlobOk = false then .error .toBlobFailed
          else
            .ok { width := 1200, height := 1800,
                  ops := .fillRect "#ffffff" 0 0 W H ::
                    (allShotOps 0 shotImgs
                        (positions.map (fun p => ⟨p.1, p.2, cellW, cellH⟩))
                      ++ [.drawFrame frameSrc 0 0 W H]),
                  mime := "image/png" }

/-- The record saved to local storage (`SavedState`): four shots, a frame
choice, an optional cached final image and a timestamp.  `frameId` is
optional here because the result page reads it defensively
(`data.frameId ?? "frame1"`); every writer stores one. -/
structure SavedState where
  shots : List Blob
  frameId : Option FrameId
  final : Option Composite
  savedAt : Nat
deriving DecidableEq, Repr

/-- The idb-keyval object store: a partial map from string keys to saved
records. -/
def Store : Type := String → Option SavedState

/-- `set(key, value)`: overwrite the record under `key`. -/
def setKV (st : Store) (k : String) (v : SavedState) : Store :=
  fun k' => if k' = k then some v else st k'

/-- `del(key)`: remove the record under `key`. -/
def delKV (st : Store) (k : String) : Store :=
  fun k' => if k' = k then none else st k'

/-- A store holding no record at all. -/
def emptyStore : Store := fun _ => none

/-- The capture page's environment: whether the video element exists, the
camera is on, a shoot is already in progress, and what `captureFromVideo`
returns for the i-th capture attempt (`none` models a rejection). -/
structure CaptureEnv where
  videoPresent : Bool
  cameraOn : Bool
  isShooting : Bool
  capture : Nat → Option Blob

/-- Observable events of the capture sequence: a countdown display value
held for `waitMs` milliseconds (`setCountdown(c); await sleep(1000)`), a
captured shot, and the inter-shot pause (`await sleep(400)`). -/
inductive CaptureEvent
  | countdown (value : Nat) (waitMs : Nat)
  | shot (index : Nat) (b : Blob)
  | pause (ms : Nat)
deriving DecidableEq, Repr

/-- The per-shot countdown `for (let c = 3; c >= 1; c--)`: 3, 2, 1, one
second each. -/
def countdownEvents : List CaptureEvent :=
  [.countdown 3 1000, .countdown 2 1000, .countdown 1 1000]

/-- The `for (let i = 0; i < 4; i++)` body of `shoot4WithPerShotCountdown`:
countdown, capture (aborting the loop on failure), and a 400ms pause after
every shot but the last.  `n` counts the remaining iterations. -/
def shootLoop (capture : Nat → Option Blob) :
    Nat → Nat → List Blob → List CaptureEvent × Option (List Blob)
  | _, 0, acc => ([], some acc)
  | i, n + 1, acc =>
    match capture i with
    | none => (countdownEvents, none)
    | some b =>
      let rest := shootLoop capture (i + 1) n (acc ++ [b])
      (countdownEvents ++ [.shot i b]
        ++ (if n = 0 then [] else [.pause 400]) ++ rest.1, rest.2)

/-- What a run of the shooting operation produces: the event trace, the
error surfaced to the user (if any) and the resulting object store. -/
structure ShootOutcome where
  events : List CaptureEvent
  error : Option String
  store : Store

/-- `shoot4WithPerShotCountdown` of the capture page: guard on the video
element, the camera and a shoot in progress, run the 4-shot loop, and on
full success write `{shots, frameId: "frame1", savedAt}` under `DB_KEY`;
on any capture failure write nothing. -/
def shoot4WithPerShotCountdown (env : CaptureEnv) (now : Nat) (st : Store) :
    ShootOutcome :=
  if env.videoPresent = false then ⟨[], some "No video element", st⟩
  else if env.cameraOn = false then ⟨[], some "Camera is off", st⟩
  else if env.isShooting = true then ⟨[], none, st⟩
  else
    match shootLoop env.capture 0 4 [] with
    | (evs, none) => ⟨evs, some "Capture failed", st⟩
    | (evs, some captured) =>
      ⟨evs, none, setKV st DB_KEY ⟨captured, some .frame1, none, now⟩⟩

/-- The error shown by the result page when no usable record is stored. -/
def noDataMsg : String :=
  "No capturing data found. Please take 4 photos on the capturing page first."

/-- The state the result page's mount effect leaves behind. -/
structure MountOutcome where
  error : Option String
  shots : List Blob
  frameId : FrameId
  final : Option Composite
  loadedAt : Option Nat

/-- The result page's mount effect: read the record under `DB_KEY`; reject
it unless it holds exactly 4 shots; otherwise adopt shots and frame choice
(defaulting to `frame1`) and always recompute the composite from the stored
shots (the stored `final` field is never consulted). -/
def loadOnMount (env : ComposeEnv) (stored : Option SavedState) :
    MountOutcome :=
  match stored with
  | none => ⟨some noDataMsg, [], .frame1, none, none⟩
  | some data =>
    if data.shots.length ≠ 4 then ⟨some noDataMsg, [], .frame1, none, none⟩
    else
      let fid := data.frameId.getD .frame1
      match composeFinalPNG env data.shots (getFrameConfig fid) with
      | .ok c => ⟨none, data.shots, fid, some c, some data.savedAt⟩
      | .error e =>
        ⟨some ((errMessage e).getD "Load failed"), data.shots, fid, none,
         some data.savedAt⟩

/-- What the result page's frame-change effect produces. -/
structure FrameSelectOutcome where
  error : Option String
  final : Option Composite
  store : Store

/-- The result page's `useEffect` on `frameId`: with 4 shots loaded,
recompose and persist `{shots, frameId, final, savedAt}` under `DB_KEY`;
without 4 shots, or when composing fails, leave the store untouched. -/
def onFrameSelect (env : ComposeEnv) (shots : List Blob) (frameId : FrameId)
    (now : Nat) (st : Store) : FrameSelectOutcome :=
  if shots.length ≠ 4 then ⟨none, none, st⟩
  else
    match composeFinalPNG env shots (getFrameConfig frameId) with
    | .error e => ⟨some ((errMessage e).getD "Compose failed"), none, st⟩
    | .ok c => ⟨none, some c, setKV st DB_KEY ⟨shots, some frameId, some c, now⟩⟩

/-- The result page's explicit `saveToDB`: requires 4 shots, then
overwrites the record under `DB_KEY` with the current page state. -/
def saveToDB (shots : List Blob) (frameId : FrameId)
    (finalB : Option Composite) (now : Nat) (st : Store) : Store :=
  if shots.length ≠ 4 then st
  else setKV st DB_KEY ⟨shots, some frameId, finalB, now⟩

/-- The result page's `clearDB`: `del(DB_KEY)`. -/
def clearDB (st : Store) : Store := delKV st DB_KEY

/-- Every store-mutating operation of the system: the capture page's save
inside the shooting loop, the result page's frame-change save, its explicit
save, and its delete. -/
inductive PersistOp
  | captureShoot (env : CaptureEnv) (now : Nat)
  | frameSelect (env : ComposeEnv) (shots : List Blob) (frameId : FrameId)
      (now : Nat)
  | save (shots : List Blob) (frameId : FrameId) (finalB : Option Composite)
      (now : Nat)
  | clear

/-- The store effect of one persistence operation. -/
def applyPersist (st : Store) : PersistOp → Store
  | .captureShoot env now => (shoot4WithPerShotCountdown env now st).store
  | .frameSelect env shots fid now => (onFrameSelect env shots fid now st).store
  | .save shots fid fb now => saveToDB shots fid fb now st
  | .clear => clearDB st

/-- A whole session: a sequence of persistence operations. -/
def applyPersistList (st : Store) (ops : List PersistOp) : Store :=
  ops.foldl applyPersist st

/-- A video element as `captureFromVideo` sees it. -/
structure Video where
  videoWidth : Nat
  videoHeight : Nat
deriving DecidableEq, Repr

/-- A 2d affine transform as a canvas context holds it
(`[a b c d e f]`, mapping `(x, y)` to `(a x + c y + e, b x + d y + f)`). -/
structure AffineT where
  a : Rat
  b : Rat
  c : Rat
  d : Rat
  e : Rat
  f : Rat
deriving DecidableEq, Repr

/-- Apply a transform to a point. -/
def AffineT.applyPt (t : AffineT) (p : Rat × Rat) : Rat × Rat :=
  (t.a * p.1 + t.c * p.2 + t.e, t.b * p.1 + t.d * p.2 + t.f)

/-- Matrix composition: `(t.mul u).applyPt p = t.applyPt (u.applyPt p)`.
Each canvas transform call multiplies the current matrix on the right. -/
def AffineT.mul (t u : AffineT) : AffineT :=
  ⟨t.a * u.a + t.c * u.b, t.b * u.a + t.d * u.b,
   t.a * u.c + t.c * u.d, t.b * u.c + t.d * u.d,
   t.a * u.e + t.c * u.f + t.e, t.b * u.e + t.d * u.f + t.f⟩

/-- The identity transform of a fresh context. -/
def AffineT.idT : AffineT := ⟨1, 0, 0, 1, 0, 0⟩

/-- `ctx.translate(tx, ty)`. -/
def translateT (tx ty : Rat) : AffineT := ⟨1, 0, 0, 1, tx, ty⟩

/-- `ctx.scale(sx, sy)`. -/
def scaleT (sx sy : Rat) : AffineT := ⟨sx, 0, 0, sy, 0, 0⟩

/-- The ways `captureFromVideo` can reject. -/
inductive CaptureFrameErr
  | videoNotReady
  | canvasNotSupported
  | toBlobFailed
deriving DecidableEq, Repr

/-- The canvas facilities `captureFromVideo` relies on. -/
structure CanvasEnv where
  ctx2d : Bool
  toBlobOk : Bool

/-- What `captureFromVideo` draws: a canvas of the video's native size, the
accumulated transform under which the full video frame is drawn at the
origin, and the encoding. -/
structure CapturedFrame where
  width : Nat
  height : Nat
  transform : AffineT
  srcX : Rat
  srcY : Rat
  srcW : Rat
  srcH : Rat
  mime : String

/-- `captureFromVideo`: guard on video readiness and the 2d context, set up
the mirror transform `translate(vw, 0); scale(-1, 1)`, draw the frame at
`(0, 0, vw, vh)` and encode the canvas as PNG. -/
def captureFromVideo (env : CanvasEnv) (v : Video) :
    Except CaptureFrameErr CapturedFrame :=
  if v.videoWidth = 0 ∨ v.videoHeight = 0 then .error .videoNotReady
  else if env.ctx2d = false then .error .canvasNotSupported
  else if env.toBlobOk = false then .error .toBlobFailed
  else
    .ok ⟨v.videoWidth, v.videoHeight,
         (AffineT.idT.mul (translateT (v.videoWidth : Rat) 0)).mul
           (scaleT (-1) 1),
         0, 0, (v.videoWidth : Rat), (v.videoHeight : Rat), "image/png"⟩

/-- Slot draw recognizer, for counting slot drawing in a trace. -/
def CanvasOp.isSlotDraw : CanvasOp → Bool
  | .clippedDraw .. => true
  | _ => false

/-- A demo decoded image for concrete runs. -/
def demoImage : Image := ⟨800, 600⟩

/-- A fully working browser environment for concrete runs: the 2d context
exists, every blob decodes to `demoImage`, every URL loads, and the encoder
works. -/
def demoEnv : ComposeEnv :=
  ⟨true, fun _ => some demoImage, fun _ => some demoImage, true⟩

/-- Four concrete shot blobs. -/
def demoShots : List Blob := [⟨0⟩, ⟨1⟩, ⟨2⟩, ⟨3⟩]

/-- A capture environment whose camera works and whose i-th capture yields
blob `i`. -/
def demoCapEnv : CaptureEnv := ⟨true, true, false, fun i => some ⟨i⟩⟩

/-- A concrete stored record holding the four demo shots. -/
def demoSaved : SavedState := ⟨demoShots, some .frame2, none, 5⟩

/-- The composite the result page computes for the demo record on mount. -/
def demoMountComposite : Composite :=
  match composeFinalPNG demoEnv demoShots (getFrameConfig .frame2) with
  | .ok c => c
  | .error _ => default

/-- The composite composed when selecting `frame3` over the demo shots. -/
def demoFrame3Composite : Composite :=
  match composeFinalPNG demoEnv demoShots (getFrameConfig .frame3) with
  | .ok c => c
  | .error _ => default

/-- C10: `getFrameConfig` is total: for every value of the `FrameId` type
there is exactly one entry in the `FRAMES` table with that id,
`getFrameConfig` returns it, and the fallback branch returning `FRAMES[0]`
is unreachable for well-typed input. -/
theorem getFrameConfig_total :
    ∀ fid : FrameId,
      (FRAMES.filter (fun f => f.id == fid)).length = 1
      ∧ FRAMES.find? (fun f => f.id == fid) = some (getFrameConfig fid)
      ∧ (getFrameConfig fid).id = fid
      ∧ getFrameConfig fid ∈ FRAMES := by
  intro fid
  cases fid
  case frame1 => exact ⟨rfl, rfl, rfl, .head _⟩
  case frame2 => exact ⟨rfl, rfl, rfl, .tail _ (.head _)⟩
  case frame3 => exact ⟨rfl, rfl, rfl, .tail _ (.tail _ (.head _))⟩
  case frame4 => exact ⟨rfl, rfl, rfl, .tail _ (.tail _ (.tail _ (.head _)))⟩

/-- C1: for every list of exactly 4 shots and every frame configuration
(its slot table, or `DEFAULT_SLOTS` when it has none, listing four slots),
`composeFinalPNG` produces a composite on a fixed 1200x1800 canvas whose
operations are: a white fill of the whole canvas, then for each index
`i` in 0..3 shot `i` drawn clipped into scaled slot rectangle `i` (each
normalized coordinate scaled by 1200 or 1800 and rounded), then the frame
image drawn over the entire canvas, encoded as a PNG blob. -/
theorem composeFinalPNG_structure
    (env : ComposeEnv) (b0 b1 b2 b3 : Blob) (frame : FrameConfig)
    (s0 s1 s2 s3 : SlotRect) (i0 i1 i2 i3 : Image) (fimg : Image)
    (hslots : frame.slots.getD DEFAULT_SLOTS = [s0, s1, s2, s3])
    (hctx : env.ctx2d = true)
    (h0 : env.decodeBlob b0 = some i0) (h1 : env.decodeBlob b1 = some i1)
    (h2 : env.decodeBlob b2 = some i2) (h3 : env.decodeBlob b3 = some i3)
    (hf : env.loadImage frame.src = some fimg)
    (henc : env.toBlobOk = true) :
    composeFinalPNG env [b0, b1, b2, b3] frame =
      .ok { width := 1200, height := 1800,
            ops := .fillRect "#ffffff" 0 0 1200 1800 ::
              (shotDrawOps 0 i0 (scaleSlot s0) ++ shotDrawOps 1 i1 (scaleSlot s1)
                ++ shotDrawOps 2 i2 (scaleSlot s2) ++ shotDrawOps 3 i3 (scaleSlot s3)
                ++ [.drawFrame frame.src 0 0 1200 1800]),
            mime := "image/png" } := by
  simp only [composeFinalPNG, decodeAll, allShotOps, List.length_cons,
    List.length_nil, hslots, hctx, h0, h1, h2, h3, hf, henc, List.map_cons,
    List.map_nil, List.append_assoc, List.nil_append, List.append_nil]
  rfl

/-- C2: `composeFinalPNG` succeeds if and only if the shots list has length
exactly 4, the 2d context is available, every shot decodes, the frame image
loads and the platform encoder works; and whenever the length is not 4 it
rejects with the error whose message is "Need exactly 4 shots" independently
of every canvas facility (in both compositor variants). -/
theorem composeFinalPNG_failure_iff
    (env env' : ComposeEnv) (shots : List Blob) (frame : FrameConfig)
    (frameSrc : String) :
    ((∃ c, composeFinalPNG env shots frame = .ok c) ↔
      (shots.length = 4 ∧ env.ctx2d = true ∧ (decodeAll env shots).isSome
        ∧ (env.loadImage frame.src).isSome ∧ env.toBlobOk = true))
    ∧ (shots.length ≠ 4 →
        composeFinalPNG env' shots frame = .error .needExactly4Shots
        ∧ composeFinalPNGGrid env' shots frameSrc = .error .needExactly4Shots)
    ∧ errMessage .needExactly4Shots = some "Need exactly 4 shots" := by
  refine ⟨?_, ?_, rfl⟩
  · unfold composeFinalPNG
    by_cases hlen : shots.length = 4
    · rw [if_neg (show ¬shots.length ≠ 4 by simp [hlen])]
      by_cases hctx : env.ctx2d
      · rw [if_neg (show ¬env.ctx2d = false by simp [hctx])]
        cases hdec : decodeAll env shots with
        | none => simp [hdec]
        | some imgs =>
          cases hload : env.loadImage frame.src with
          | none => simp [hload]
          | some fimg =>
            by_cases henc : env.toBlobOk
            · simp [henc, hlen, hctx]
            · simp [eq_false_of_ne_true henc]
      · simp [eq_false_of_ne_true hctx]
    · simp [hlen]
  · intro hlen
    constructor
    · unfold composeFinalPNG
      simp [hlen]
    · unfold composeFinalPNGGrid
      simp [hlen]

/-- Writing a key makes it hold exactly the written record. -/
theorem setKV_eq (st : Store) (k : String) (v : SavedState) :
    setKV st k v k = some v := by
  simp [setKV]

/-- Writing a key leaves every other key unchanged. -/
theorem setKV_ne (st : Store) (k k' : String) (v : SavedState)
    (h : k' ≠ k) : setKV st k v k' = st k' := by
  simp [setKV, h]

/-- Deleting a key leaves every other key unchanged. -/
theorem delKV_ne (st : Store) (k k' : String) (h : k' ≠ k) :
    delKV st k k' = st k' := by
  simp [delKV, h]

/-- If the shot loop finishes with a capture list, every capture it covers
succeeded. -/
theorem shootLoop_some (cap : Nat → Option Blob) :
    ∀ (n i : Nat) (acc l : List Blob),
      (shootLoop cap i n acc).2 = some l → ∀ j, j < n → cap (i + j) ≠ none := by
  intro n
  induction n with
  | zero => intro i acc l _ j hj; omega
  | succ n ih =>
    intro i acc l h j hj
    cases hcap : cap i with
    | none => simp [shootLoop, hcap] at h
    | some b =>
      simp only [shootLoop, hcap] at h
      cases j with
      | zero => simp [hcap]
      | succ m =>
        have := ih (i + 1) (acc ++ [b]) l h m (by omega)
        rw [show i + (m + 1) = i + 1 + m by omega]
        exact this

/-- No persistence operation touches a key other than `DB_KEY`. -/
theorem applyPersist_other (st : Store) (op : PersistOp) (k : String)
    (hk : k ≠ DB_KEY) : applyPersist st op k = st k := by
  cases op with
  | captureShoot env now =>
    simp only [applyPersist, shoot4WithPerShotCountdown]
    split
    · rfl
    · split
      · rfl
      · split
        · rfl
        · split
          · rfl
          · exact setKV_ne st DB_KEY k _ hk
  | frameSelect env shots fid now =>
    simp only [applyPersist, onFrameSelect]
    split
    · rfl
    · split
      · rfl
      · exact setKV_ne st DB_KEY k _ hk
  | save shots fid fb now =>
    simp only [applyPersist, saveToDB]
    split
    · rfl
    · exact setKV_ne st DB_KEY k _ hk
  | clear =>
    simp only [applyPersist, clearDB]
    exact delKV_ne st DB_KEY k hk

/-- No sequence of persistence operations touches a key other than
`DB_KEY`. -/
theorem applyPersistList_other (ops : List PersistOp) :
    ∀ (st : Store) (k : String), k ≠ DB_KEY →
      applyPersistList st ops k = st k := by
  induction ops with
  | nil => intro st k _; rfl
  | cons op ops ih =>
    intro st k hk
    simp only [applyPersistList, List.foldl_cons]
    rw [show List.foldl applyPersist (applyPersist st op) ops =
          applyPersistList (applyPersist st op) ops from rfl]
    rw [ih (applyPersist st op) k hk, applyPersist_other st op k hk]

/-- C3: a successful run of `shoot4WithPerShotCountdown` runs a full
3, 2, 1 countdown (one second per step) before each of exactly 4 captures
taken in order, then writes the record holding those 4 images in capture
order with the default layout `frame1` under `DB_KEY`; if any capture step
fails, the store is left untouched. -/
theorem shoot4_trace_and_save
    (env : CaptureEnv) (st : Store) (now : Nat) (b0 b1 b2 b3 : Blob)
    (hv : env.videoPresent = true) (hc : env.cameraOn = true)
    (hs : env.isShooting = false)
    (h0 : env.capture 0 = some b0) (h1 : env.capture 1 = some b1)
    (h2 : env.capture 2 = some b2) (h3 : env.capture 3 = some b3) :
    (shoot4WithPerShotCountdown env now st).events =
      countdownEvents ++ [.shot 0 b0, .pause 400]
        ++ countdownEvents ++ [.shot 1 b1, .pause 400]
        ++ countdownEvents ++ [.shot 2 b2, .pause 400]
        ++ countdownEvents ++ [.shot 3 b3]
    ∧ countdownEvents
        = [.countdown 3 1000, .countdown 2 1000, .countdown 1 1000]
    ∧ (shoot4WithPerShotCountdown env now st).store DB_KEY
        = some ⟨[b0, b1, b2, b3], some .frame1, none, now⟩
    ∧ (shoot4WithPerShotCountdown env now st).error = none
    ∧ (∀ (env' : CaptureEnv) (st' : Store) (i : Nat),
        env'.capture i = none → i < 4 →
        (shoot4WithPerShotCountdown env' now st').store = st') := by
  have hrun : shoot4WithPerShotCountdown env now st =
      ⟨(shootLoop env.capture 0 4 []).1, none,
       setKV st DB_KEY ⟨(shootLoop env.capture 0 4 []).2.getD [], some .frame1,
         none, now⟩⟩ := by
    simp only [shoot4WithPerShotCountdown, hv, hc, hs]
    simp only [shootLoop, h0, h1, h2, h3]
    rfl
  have hloop1 : (shootLoop env.capture 0 4 []).1 =
      countdownEvents ++ [.shot 0 b0, .pause 400]
        ++ countdownEvents ++ [.shot 1 b1, .pause 400]
        ++ countdownEvents ++ [.shot 2 b2, .pause 400]
        ++ countdownEvents ++ [.shot 3 b3] := by
    simp [shootLoop, h0, h1, h2, h3]
  have hloop2 : (shootLoop env.capture 0 4 []).2 = some [b0, b1, b2, b3] := by
    simp [shootLoop, h0, h1, h2, h3]
  refine ⟨?_, rfl, ?_, ?_, ?_⟩
  · rw [hrun]; exact hloop1
  · rw [hrun]
    show setKV st DB_KEY _ DB_KEY = _
    rw [setKV_eq, hloop2]
    rfl
  · rw [hrun]
  · intro env' st' i hnone hi
    simp only [shoot4WithPerShotCountdown]
    split
    · rfl
    · split
      · rfl
      · split
        · rfl
        · cases hsl : shootLoop env'.capture 0 4 [] with
          | mk evs res =>
            cases res with
            | none => simp [hsl]
            | some captured =>
              have := shootLoop_some env'.capture 4 0 [] captured
                (by rw [hsl]) i (by omega)
              rw [Nat.zero_add] at this
              exact absurd hnone this

/-- C5: every persistence operation of the system addresses the single
fixed key `"toaster_mvp_state_v1"`: no operation changes any other key, a
session starting from an empty store never holds a record under any other
key, and each save writes a complete record that replaces whatever record
previously existed under the key. -/
theorem persistence_single_key
    (op : PersistOp) (ops : List PersistOp) (st : Store) (k : String)
    (shots : List Blob) (fid : FrameId) (fb : Option Composite) (now : Nat)
    (hk : k ≠ DB_KEY) (h4 : shots.length = 4) :
    DB_KEY = "toaster_mvp_state_v1"
    ∧ applyPersist st op k = st k
    ∧ applyPersistList emptyStore ops k = none
    ∧ saveToDB shots fid fb now st DB_KEY = some ⟨shots, some fid, fb, now⟩ := by
  refine ⟨rfl, applyPersist_other st op k hk,
    applyPersistList_other ops emptyStore k hk, ?_⟩
  simp only [saveToDB, h4]
  rw [if_neg (by simp)]
  exact setKV_eq st DB_KEY _

/-- C7: on mount the result page: with no stored record, or a record whose
shots list does not have length 4, it reports the no-data error and leaves
no shots and no composite; otherwise it adopts the stored shots and the
stored frame choice (defaulting to `frame1` when absent) and recomputes the
composite from the stored shots; the stored cached `final` field never
influences the outcome. -/
theorem resultPage_mount (env : ComposeEnv) (data : SavedState)
    (c : Composite) :
    ((loadOnMount env none).error = some noDataMsg
      ∧ (loadOnMount env none).shots = []
      ∧ (loadOnMount env none).final = none)
    ∧ (data.shots.length ≠ 4 →
        (loadOnMount env (some data)).error = some noDataMsg
        ∧ (loadOnMount env (some data)).shots = []
        ∧ (loadOnMount env (some data)).final = none)
    ∧ (data.shots.length = 4 →
        (loadOnMount env (some data)).shots = data.shots
        ∧ (loadOnMount env (some data)).frameId = data.frameId.getD .frame1
        ∧ (composeFinalPNG env data.shots
            (getFrameConfig (data.frameId.getD .frame1)) = .ok c →
          (loadOnMount env (some data)).final = some c))
    ∧ loadOnMount env (some data)
        = loadOnMount env (some { data with final := none }) := by
  refine ⟨⟨rfl, rfl, rfl⟩, ?_, ?_, ?_⟩
  · intro hlen
    simp [loadOnMount, hlen]
  · intro hlen
    simp only [loadOnMount, hlen]
    rw [if_neg (by simp)]
    refine ⟨?_, ?_, ?_⟩
    · cases hcomp : composeFinalPNG env data.shots
        (getFrameConfig (data.frameId.getD .frame1)) <;> simp [hcomp]
    · cases hcomp : composeFinalPNG env data.shots
        (getFrameConfig (data.frameId.getD .frame1)) <;> simp [hcomp]
    · intro hcomp
      simp [hcomp]
  · simp only [loadOnMount]

/-- C9: selecting a frame with exactly 4 shots loaded recomposes the final
image and overwrites the record under `DB_KEY` with the new frame id, the
newly composed final image and the new timestamp, while the shots stored
are the same four images; no other key is affected. -/
theorem frameSelect_persists
    (env : ComposeEnv) (shots : List Blob) (fid : FrameId) (now : Nat)
    (st : Store) (c : Composite)
    (h4 : shots.length = 4)
    (hc : composeFinalPNG env shots (getFrameConfig fid) = .ok c) :
    (onFrameSelect env shots fid now st).final = some c
    ∧ (onFrameSelect env shots fid now st).store DB_KEY
        = some ⟨shots, some fid, some c, now⟩
    ∧ (∀ k, k ≠ DB_KEY → (onFrameSelect env shots fid now st).store k = st k)
    ∧ (onFrameSelect env shots fid now st).error = none := by
  have hrun : onFrameSelect env shots fid now st =
      ⟨none, some c, setKV st DB_KEY ⟨shots, some fid, some c, now⟩⟩ := by
    simp only [onFrameSelect, h4]
    rw [if_neg (by simp), hc]
  refine ⟨by rw [hrun], ?_, ?_, by rw [hrun]⟩
  · rw [hrun]
    exact setKV_eq st DB_KEY _
  · intro k hk
    rw [hrun]
    exact setKV_ne st DB_KEY k _ hk

/-- C6: for every video with nonzero dimensions (and a working canvas),
`captureFromVideo` draws the frame onto a canvas of the video's native size
under the transform `translate(vw, 0)` then `scale(-1, 1)`, which maps the
point at column `x` to column `vw - x` (a horizontal mirror), draws the
full frame at the origin, and encodes as PNG. -/
theorem captureFromVideo_mirror (env : CanvasEnv) (v : Video)
    (hw : v.videoWidth ≠ 0) (hh : v.videoHeight ≠ 0)
    (hctx : env.ctx2d = true) (henc : env.toBlobOk = true) :
    ∃ cf, captureFromVideo env v = .ok cf
      ∧ cf.width = v.videoWidth ∧ cf.height = v.videoHeight
      ∧ cf.transform
          = (AffineT.idT.mul (translateT (v.videoWidth : Rat) 0)).mul
              (scaleT (-1) 1)
      ∧ (∀ x y : Rat, cf.transform.applyPt (x, y)
          = ((v.videoWidth : Rat) - x, y))
      ∧ cf.srcX = 0 ∧ cf.srcY = 0
      ∧ cf.srcW = (v.videoWidth : Rat) ∧ cf.srcH = (v.videoHeight : Rat)
      ∧ cf.mime = "image/png" := by
  have hrun : captureFromVideo env v =
      .ok ⟨v.videoWidth, v.videoHeight,
        (AffineT.idT.mul (translateT (v.videoWidth : Rat) 0)).mul
          (scaleT (-1) 1),
        0, 0, (v.videoWidth : Rat), (v.videoHeight : Rat), "image/png"⟩ := by
    simp only [captureFromVideo]
    rw [if_neg (by simp [hw, hh]), if_neg (by simp [hctx]),
      if_neg (by simp [henc])]
  refine ⟨_, hrun, rfl, rfl, rfl, ?_, rfl, rfl, rfl, rfl, rfl⟩
  intro x y
  simp only [AffineT.applyPt, AffineT.mul, AffineT.idT, translateT, scaleT]
  rw [Prod.mk.injEq]
  constructor <;> ring

/-- C8: for every image with positive dimensions and every slot with
positive width and height, the operations `composeFinalPNG` emits for that
image and slot draw the image at the cover scale
`max(w / imgWidth, h / imgHeight)`, centered on the slot: the drawn size
satisfies `drawW ≥ w` and `drawH ≥ h` and the drawn rectangle contains the
whole clipped slot rectangle (cover semantics, no letterboxing). -/
theorem shotDraw_covers_slot (i : Nat) (img : Image) (s : SlotI)
    (hiw : 0 < img.width) (hih : 0 < img.height)
    (_hw : 0 < (s.w : Rat)) (_hh : 0 < (s.h : Rat)) :
    ∃ dx dy dw dh : Rat,
      shotDrawOps i img s =
        [ .clippedDraw i s.x s.y s.w s.h dx dy dw dh,
          .strokeRect "rgba(0,0,0,0.08)" 6 s.x s.y s.w s.h ]
      ∧ dw = img.width * coverScale img (s.w : Rat) (s.h : Rat)
      ∧ dh = img.height * coverScale img (s.w : Rat) (s.h : Rat)
      ∧ dx = (s.x : Rat) + ((s.w : Rat) - dw) / 2
      ∧ dy = (s.y : Rat) + ((s.h : Rat) - dh) / 2
      ∧ (s.w : Rat) ≤ dw ∧ (s.h : Rat) ≤ dh
      ∧ dx ≤ (s.x : Rat) ∧ (s.x : Rat) + (s.w : Rat) ≤ dx + dw
      ∧ dy ≤ (s.y : Rat) ∧ (s.y : Rat) + (s.h : Rat) ≤ dy + dh := by
  have hdw : (s.w : Rat) ≤ img.width * coverScale img (s.w : Rat) (s.h : Rat) := by
    have h1 : (s.w : Rat) / img.width ≤ coverScale img (s.w : Rat) (s.h : Rat) :=
      le_max_left _ _
    calc (s.w : Rat) = img.width * ((s.w : Rat) / img.width) := by
          field_simp
      _ ≤ img.width * coverScale img (s.w : Rat) (s.h : Rat) :=
          mul_le_mul_of_nonneg_left h1 (le_of_lt hiw)
  have hdh : (s.h : Rat) ≤ img.height * coverScale img (s.w : Rat) (s.h : Rat) := by
    have h1 : (s.h : Rat) / img.height ≤ coverScale img (s.w : Rat) (s.h : Rat) :=
      le_max_right _ _
    calc (s.h : Rat) = img.height * ((s.h : Rat) / img.height) := by
          field_simp
      _ ≤ img.height * coverScale img (s.w : Rat) (s.h : Rat) :=
          mul_le_mul_of_nonneg_left h1 (le_of_lt hih)
  refine ⟨_, _, _, _, rfl, rfl, rfl, rfl, rfl, hdw, hdh, ?_, ?_, ?_, ?_⟩
  · linarith
  · linarith
  · linarith
  · linarith

/-- C4 counterexample: two of the four configurations (not one) carry no
slot table of their own, those two resolve to the same default coordinate
table (so the four configurations do not split into one plain overlay plus
three distinct tables), and composing under slot-table-less `frame1` still
draws all four shots into slots — no configuration is a plain overlay. -/
theorem frames_slotless_count_and_equal_tables :
    FRAMES.countP (fun f => f.slots.isNone) = 2
    ∧ (getFrameConfig .frame1).slots.getD DEFAULT_SLOTS
        = (getFrameConfig .frame3).slots.getD DEFAULT_SLOTS
    ∧ (composeFinalPNG demoEnv demoShots (getFrameConfig .frame1)).map
        (fun c => c.ops.countP CanvasOp.isSlotDraw) = Except.ok 4 := by
  refine ⟨by decide, rfl, rfl⟩

/-- C4 amended: the result page offers exactly four fixed layout
configurations; `frame1` and `frame3` have no slot table of their own and
both fall back to the shared default table, while `frame2` and `frame4`
carry their own four-slot tables, distinct from each other and from the
default; every configuration has an effective table of four rectangular
slots and draws the four shots into them (all tables are fixed constants,
with no layout algorithm). -/
theorem frames_four_fixed_configurations :
    FRAMES.length = 4
    ∧ FRAMES.map FrameConfig.id = [.frame1, .frame2, .frame3, .frame4]
    ∧ (getFrameConfig .frame1).slots = none
    ∧ (getFrameConfig .frame3).slots = none
    ∧ (getFrameConfig .frame2).slots
        = some [ ⟨0.105, 0.3261, 0.3675, 0.2433⟩,
                 ⟨0.5142, 0.3261, 0.3683, 0.2433⟩,
                 ⟨0.105, 0.5783, 0.3675, 0.2428⟩,
                 ⟨0.5142, 0.5783, 0.3683, 0.2428⟩ ]
    ∧ (getFrameConfig .frame4).slots
        = some [ ⟨0.1016, 0.3242, 0.3721, 0.2474⟩,
                 ⟨0.5107, 0.3242, 0.3721, 0.2474⟩,
                 ⟨0.1016, 0.5762, 0.3721, 0.2474⟩,
                 ⟨0.5107, 0.5762, 0.3721, 0.2474⟩ ]
    ∧ (getFrameConfig .frame2).slots.getD DEFAULT_SLOTS ≠ DEFAULT_SLOTS
    ∧ (getFrameConfig .frame4).slots.getD DEFAULT_SLOTS ≠ DEFAULT_SLOTS
    ∧ (getFrameConfig .frame2).slots.getD DEFAULT_SLOTS
        ≠ (getFrameConfig .frame4).slots.getD DEFAULT_SLOTS
    ∧ (∀ fid : FrameId,
        ((getFrameConfig fid).slots.getD DEFAULT_SLOTS).length = 4)
    ∧ (∀ fid : FrameId,
        (composeFinalPNG demoEnv demoShots (getFrameConfig fid)).map
          (fun c => c.ops.countP CanvasOp.isSlotDraw) = Except.ok 4) := by
  refine ⟨rfl, rfl, rfl, rfl, rfl, rfl, ?_, ?_, ?_, ?_, ?_⟩
  · intro h
    have h' : ([ ⟨0.105, 0.3261, 0.3675, 0.2433⟩,
                 ⟨0.5142, 0.3261, 0.3683, 0.2433⟩,
                 ⟨0.105, 0.5783, 0.3675, 0.2428⟩,
                 ⟨0.5142, 0.5783, 0.3683, 0.2428⟩ ] : List SlotRect)
        = [ ⟨0.075, 0.2, 0.425, 0.2833333333⟩,
            ⟨0.5, 0.2, 0.425, 0.2833333333⟩,
            ⟨0.075, 0.5166666667, 0.425, 0.2833333333⟩,
            ⟨0.5, 0.5166666667, 0.425, 0.2833333333⟩ ] := h
    simp only [List.cons.injEq, SlotRect.mk.injEq] at h'
    norm_num at h'
  · intro h
    have h' : ([ ⟨0.1016, 0.3242, 0.3721, 0.2474⟩,
                 ⟨0.5107, 0.3242, 0.3721, 0.2474⟩,
                 ⟨0.1016, 0.5762, 0.3721, 0.2474⟩,
                 ⟨0.5107, 0.5762, 0.3721, 0.2474⟩ ] : List SlotRect)
        = [ ⟨0.075, 0.2, 0.425, 0.2833333333⟩,
            ⟨0.5, 0.2, 0.425, 0.2833333333⟩,
            ⟨0.075, 0.5166666667, 0.425, 0.2833333333⟩,
            ⟨0.5, 0.5166666667, 0.425, 0.2833333333⟩ ] := h
    simp only [List.cons.injEq, SlotRect.mk.injEq] at h'
    norm_num at h'
  · intro h
    have h' : ([ ⟨0.105, 0.3261, 0.3675, 0.2433⟩,
                 ⟨0.5142, 0.3261, 0.3683, 0.2433⟩,
                 ⟨0.105, 0.5783, 0.3675, 0.2428⟩,
                 ⟨0.5142, 0.5783, 0.3683, 0.2428⟩ ] : List SlotRect)
        = [ ⟨0.1016, 0.3242, 0.3721, 0.2474⟩,
            ⟨0.5107, 0.3242, 0.3721, 0.2474⟩,
            ⟨0.1016, 0.5762, 0.3721, 0.2474⟩,
            ⟨0.5107, 0.5762, 0.3721, 0.2474⟩ ] := h
    simp only [List.cons.injEq, SlotRect.mk.injEq] at h'
    norm_num at h'
  · intro fid
    cases fid <;> rfl
  · intro fid
    cases fid <;> rfl

/-- C1 witness: the compositor run on four concrete shots under `frame1`
(default slot table) in a fully working environment. -/
theorem composeFinalPNG_structure_witness :
    composeFinalPNG demoEnv [⟨0⟩, ⟨1⟩, ⟨2⟩, ⟨3⟩] (getFrameConfig .frame1) =
      .ok { width := 1200, height := 1800,
            ops := .fillRect "#ffffff" 0 0 1200 1800 ::
              (shotDrawOps 0 demoImage
                  (scaleSlot ⟨0.075, 0.2, 0.425, 0.2833333333⟩)
                ++ shotDrawOps 1 demoImage
                  (scaleSlot ⟨0.5, 0.2, 0.425, 0.2833333333⟩)
                ++ shotDrawOps 2 demoImage
                  (scaleSlot ⟨0.075, 0.5166666667, 0.425, 0.2833333333⟩)
                ++ shotDrawOps 3 demoImage
                  (scaleSlot ⟨0.5, 0.5166666667, 0.425, 0.2833333333⟩)
                ++ [.drawFrame (getFrameConfig .frame1).src 0 0 1200 1800]),
            mime := "image/png" } :=
  composeFinalPNG_structure demoEnv ⟨0⟩ ⟨1⟩ ⟨2⟩ ⟨3⟩ (getFrameConfig .frame1)
    _ _ _ _ demoImage demoImage demoImage demoImage demoImage
    rfl rfl rfl rfl rfl rfl rfl rfl

/-- C2 witness: a 1-element shots list is rejected with the
"Need exactly 4 shots" error. -/
theorem composeFinalPNG_failure_iff_witness :
    composeFinalPNG demoEnv [⟨0⟩] (getFrameConfig .frame1)
      = .error .needExactly4Shots :=
  ((composeFinalPNG_failure_iff demoEnv demoEnv [⟨0⟩] (getFrameConfig .frame1)
      "/frames/frame1.png").2.1 (by decide)).1

/-- C3 witness: a concrete successful run writes the four captured blobs
with layout `frame1` under `DB_KEY`. -/
theorem shoot4_trace_and_save_witness :
    (shoot4WithPerShotCountdown demoCapEnv 0 emptyStore).store DB_KEY
      = some ⟨[⟨0⟩, ⟨1⟩, ⟨2⟩, ⟨3⟩], some .frame1, none, 0⟩ :=
  (shoot4_trace_and_save demoCapEnv emptyStore 0 ⟨0⟩ ⟨1⟩ ⟨2⟩ ⟨3⟩
    rfl rfl rfl rfl rfl rfl rfl).2.2.1

/-- C5 witness: a concrete operation and session touch only the fixed key,
and a concrete save overwrites it. -/
theorem persistence_single_key_witness :
    DB_KEY = "toaster_mvp_state_v1"
    ∧ applyPersist emptyStore .clear "other" = emptyStore "other"
    ∧ applyPersistList emptyStore [.clear] "other" = none
    ∧ saveToDB demoShots .frame1 none 0 emptyStore DB_KEY
        = some ⟨demoShots, some .frame1, none, 0⟩ :=
  persistence_single_key .clear [.clear] emptyStore "other" demoShots .frame1
    none 0 (by decide) rfl

/-- C6 witness: capturing from a concrete 1280x720 video. -/
theorem captureFromVideo_mirror_witness :
    ∃ cf, captureFromVideo ⟨true, true⟩ ⟨1280, 720⟩ = .ok cf
      ∧ cf.width = Video.videoWidth ⟨1280, 720⟩
      ∧ cf.height = Video.videoHeight ⟨1280, 720⟩
      ∧ cf.transform
          = (AffineT.idT.mul (translateT ((Video.videoWidth ⟨1280, 720⟩ : Nat) : Rat) 0)).mul
              (scaleT (-1) 1)
      ∧ (∀ x y : Rat, cf.transform.applyPt (x, y)
          = (((Video.videoWidth ⟨1280, 720⟩ : Nat) : Rat) - x, y))
      ∧ cf.srcX = 0 ∧ cf.srcY = 0
      ∧ cf.srcW = ((Video.videoWidth ⟨1280, 720⟩ : Nat) : Rat)
      ∧ cf.srcH = ((Video.videoHeight ⟨1280, 720⟩ : Nat) : Rat)
      ∧ cf.mime = "image/png" :=
  captureFromVideo_mirror ⟨true, true⟩ ⟨1280, 720⟩ (by decide) (by decide)
    rfl rfl

/-- C7 witness: mounting over a concrete stored record adopts its shots and
recomputes the composite. -/
theorem resultPage_mount_witness :
    (loadOnMount demoEnv (some demoSaved)).shots = demoSaved.shots
    ∧ (loadOnMount demoEnv (some demoSaved)).final
        = some demoMountComposite :=
  ⟨((resultPage_mount demoEnv demoSaved demoMountComposite).2.2.1 rfl).1,
   ((resultPage_mount demoEnv demoSaved demoMountComposite).2.2.1 rfl).2.2 rfl⟩

/-- C8 witness: the concrete 800x600 demo image covers a concrete
510x510 slot. -/
theorem shotDraw_covers_slot_witness :
    ∃ dx dy dw dh : Rat,
      shotDrawOps 0 demoImage ⟨90, 360, 510, 510⟩ =
        [ .clippedDraw 0 (SlotI.x ⟨90, 360, 510, 510⟩)
            (SlotI.y ⟨90, 360, 510, 510⟩) (SlotI.w ⟨90, 360, 510, 510⟩)
            (SlotI.h ⟨90, 360, 510, 510⟩) dx dy dw dh,
          .strokeRect "rgba(0,0,0,0.08)" 6 (SlotI.x ⟨90, 360, 510, 510⟩)
            (SlotI.y ⟨90, 360, 510, 510⟩) (SlotI.w ⟨90, 360, 510, 510⟩)
            (SlotI.h ⟨90, 360, 510, 510⟩) ]
      ∧ dw = demoImage.width
          * coverScale demoImage ((SlotI.w ⟨90, 360, 510, 510⟩ : Int) : Rat)
              ((SlotI.h ⟨90, 360, 510, 510⟩ : Int) : Rat)
      ∧ dh = demoImage.height
          * coverScale demoImage ((SlotI.w ⟨90, 360, 510, 510⟩ : Int) : Rat)
              ((SlotI.h ⟨90, 360, 510, 510⟩ : Int) : Rat)
      ∧ dx = ((SlotI.x ⟨90, 360, 510, 510⟩ : Int) : Rat)
          + (((SlotI.w ⟨90, 360, 510, 510⟩ : Int) : Rat) - dw) / 2
      ∧ dy = ((SlotI.y ⟨90, 360, 510, 510⟩ : Int) : Rat)
          + (((SlotI.h ⟨90, 360, 510, 510⟩ : Int) : Rat) - dh) / 2
      ∧ ((SlotI.w ⟨90, 360, 510, 510⟩ : Int) : Rat) ≤ dw
      ∧ ((SlotI.h ⟨90, 360, 510, 510⟩ : Int) : Rat) ≤ dh
      ∧ dx ≤ ((SlotI.x ⟨90, 360, 510, 510⟩ : Int) : Rat)
      ∧ ((SlotI.x ⟨90, 360, 510, 510⟩ : Int) : Rat)
          + ((SlotI.w ⟨90, 360, 510, 510⟩ : Int) : Rat) ≤ dx + dw
      ∧ dy ≤ ((SlotI.y ⟨90, 360, 510, 510⟩ : Int) : Rat)
      ∧ ((SlotI.y ⟨90, 360, 510, 510⟩ : Int) : Rat)
          + ((SlotI.h ⟨90, 360, 510, 510⟩ : Int) : Rat) ≤ dy + dh :=
  shotDraw_covers_slot 0 demoImage ⟨90, 360, 510, 510⟩
    (by norm_num [demoImage]) (by norm_num [demoImage])
    (by norm_num) (by norm_num)

/-- C9 witness: selecting `frame3` over the four demo shots persists the
recomposed record under `DB_KEY`. -/
theorem frameSelect_persists_witness :
    (onFrameSelect demoEnv demoShots .frame3 7 emptyStore).store DB_KEY
      = some ⟨demoShots, some .frame3, some demoFrame3Composite, 7⟩ :=
  (frameSelect_persists demoEnv demoShots .frame3 7 emptyStore
    demoFrame3Composite rfl rfl).2.1

end Toaster
